import Mathlib

/-!
Shallow embedding of `src/use-wake-lock.ts` (react-screen-wake-lock).

The hook owns a React state cell `released : boolean | undefined`, a mutable
ref `wakeLock : WakeLockSentinel | null`, and registers/unregisters a single
`visibilitychange` listener (`handleVisibilityReturn`).  The external platform
surface (`navigator.wakeLock.request`, `sentinel.release()`,
`sentinel.released`, `document.visibilityState`) is modelled by explicit
outcome parameters.  Each public operation is embedded as a function from the
controller state (plus the outcomes of the external calls it performs) to a
final controller state together with a trace of observable events; a platform
rejection that the source does not catch surfaces as `Except.error`.

Async semantics: `request` calls `destroy()` WITHOUT awaiting it.  The
synchronous prefix of `destroy` starts the platform release of the old handle
and suspends; `request` then starts the new acquisition and suspends.  The two
continuations (destroy teardown vs. request success path) run as separate
microtasks, in an order decided by which external promise resolves first; the
parameter `releaseFirst` picks that order.  Everything inside one continuation
is synchronous and cannot be interleaved.

The DOM deduplicates `addEventListener` registrations with the same handler
reference, so the listener registration is modelled as a boolean flag (the
embedding covers one render cycle, where `handleVisibilityReturn` is a single
stable reference).
-/

namespace WakeLock

/-- `WakeLockType` from the web API; the source only ever uses the default
kind, the string literal `screen`. -/
inductive WLType where
  | screen
deriving DecidableEq, Repr

/-- An error value carried by a rejected promise or a thrown exception. -/
structure JSError where
  code : Nat
deriving DecidableEq, Repr

/-- `WakeLockSentinel`: the platform lock handle.  `released` is the
experimental `WakeLockSentinel.released` field: `none` models the field being
absent (`undefined`) on platforms that do not expose it. -/
structure Sentinel where
  id : Nat
  stype : WLType
  released : Option Bool
deriving DecidableEq, Repr

/-- The JavaScript values that can flow into the `released` state cell or into
a truthiness test in this component: `undefined`, `null`, or a boolean. -/
inductive JSVal where
  | undefined
  | null
  | bool (b : Bool)
deriving DecidableEq, Repr

/-- JS truthiness restricted to the values above. -/
def JSVal.truthy : JSVal → Bool
  | .bool b => b
  | _ => false

/-- Whether a `JSVal` is an actual boolean (the cell has left `undefined`). -/
def JSVal.isBool : JSVal → Bool
  | .bool _ => true
  | _ => false

/-- JS `a || b` on the values above: yields `a` when `a` is truthy, else `b`. -/
def jsOr (a b : JSVal) : JSVal :=
  if a.truthy then a else b

/-- The subexpression `wakeLock.current && wakeLock.current.released` with JS
short-circuiting: `null` when the ref is null (the `&&` returns its falsy left
operand), otherwise the value of the handle's `released` field. -/
def currentAndReleased (cur : Option Sentinel) : JSVal :=
  match cur with
  | none => .null
  | some h =>
    match h.released with
    | none => .undefined
    | some b => .bool b

/-- Which caller-supplied callbacks are provided, and whether `onRequest`
throws when invoked.  `onRequest = none`: not provided; `some none`: provided
and returns normally; `some (some e)`: provided and throws `e`. -/
structure Callbacks where
  onError : Bool
  onRequest : Option (Option JSError)
  onRelease : Bool
  onDestroy : Bool
deriving DecidableEq, Repr

/-- The controller state owned by the hook: the `released` state cell, the
`wakeLock` ref, and whether `handleVisibilityReturn` is currently registered
on `visibilitychange`. -/
structure HookState where
  released : JSVal
  wakeLock : Option Sentinel
  listenerOn : Bool
deriving DecidableEq, Repr

/-- Initial state: `released` starts as `undefined`, no handle, no listener. -/
def initState : HookState := ⟨.undefined, none, false⟩

/-- The warning messages the source logs via `console.warn`. -/
inductive WarnMsg where
  | requestUnsupported
  | releaseUnsupported
  | releaseBeforeRequest
  | destroyUnsupported
  | destroyBeforeRequest
deriving DecidableEq, Repr

/-- Observable events emitted while an operation runs, in program order. -/
inductive Ev where
  | warned (m : WarnMsg)
  | platformReleaseStart
  | platformAcquireStart
  | handleStored (id : Nat)
  | onreleaseSet
  | listenerAdded
  | listenerRemoved
  | handleCleared
  | onrequestCalled
  | onerrorCalled (e : JSError)
  | onreleaseCalled
  | ondestroyCalled
  | setReleasedEv (v : JSVal)
deriving DecidableEq, Repr

/-- Outcome of one `navigator.wakeLock.request(type)` call. -/
inductive AcquireOutcome where
  | ok (h : Sentinel)
  | fail (e : JSError)
deriving DecidableEq, Repr

/-- The teardown continuation of `destroy` — the `.then` callback that runs
once the platform release resolves:
`removeEventListener; wakeLock.current = null; onDestroy?.()`. -/
def destroyResume (cb : Callbacks) (st : HookState) : HookState × List Ev :=
  ({ st with listenerOn := false, wakeLock := none },
    [.listenerRemoved, .handleCleared] ++
      (if cb.onDestroy then [.ondestroyCalled] else []))

/-- The `try`-block of `request` from the point the acquire promise settles.
On a throw, the state mutated so far and the trace so far are carried into the
error (JS does not roll back).  Throw points: the acquire rejecting, and a
caller-supplied `onRequest` throwing. -/
def requestTryBody (cb : Callbacks) (acq : AcquireOutcome) (st : HookState) :
    Except (JSError × HookState × List Ev) (HookState × List Ev) :=
  match acq with
  | .fail e => .error (e, st, [])
  | .ok h =>
    let st1 : HookState := { st with wakeLock := some h, listenerOn := true }
    let evs1 : List Ev := [.handleStored h.id, .onreleaseSet, .listenerAdded]
    match cb.onRequest with
    | some (some e) => .error (e, st1, evs1 ++ [.onrequestCalled])
    | some none =>
      let v := jsOr (currentAndReleased st1.wakeLock) (.bool false)
      .ok ({ st1 with released := v }, evs1 ++ [.onrequestCalled, .setReleasedEv v])
    | none =>
      let v := jsOr (currentAndReleased st1.wakeLock) (.bool false)
      .ok ({ st1 with released := v }, evs1 ++ [.setReleasedEv v])

/-- The continuation of `request` after the acquire promise settles: the
`try`-block followed by the `catch` handler `onError?.(error)`, which absorbs
any throw. -/
def requestResume (cb : Callbacks) (acq : AcquireOutcome) (st : HookState) :
    HookState × List Ev :=
  match requestTryBody cb acq st with
  | .ok r => r
  | .error (e, st1, evs1) =>
    (st1, evs1 ++ (if cb.onError then [.onerrorCalled e] else []))

/-- One call to `request(type = screen)`.

* `sup`: the `isSupported` capability check.
* `acq`: outcome of the platform acquire.
* `destroyRel`: outcome of the platform release started by the implicit,
  unawaited `destroy()` when a handle is already active (`some e` = the
  release rejects, so the teardown `.then` never runs and the rejection is
  unhandled — it does not reach `request`'s caller).
* `releaseFirst`: when both the old handle's release and the new acquire are
  pending, whether the release resolves first (its teardown microtask runs
  before `request`'s own continuation) or second. -/
def request (sup : Bool) (cb : Callbacks) (acq : AcquireOutcome)
    (destroyRel : Option JSError) (releaseFirst : Bool) (st : HookState) :
    HookState × List Ev :=
  if sup = false then
    (st, [.warned .requestUnsupported])
  else if st.wakeLock.isSome then
    -- `destroy()` (not awaited) runs its synchronous prefix: guards pass,
    -- the old handle's platform release starts, then destroy suspends.
    -- `request` continues synchronously and starts the new acquisition.
    match destroyRel with
    | some _ =>
      let r := requestResume cb acq st
      (r.1, [.platformReleaseStart, .platformAcquireStart] ++ r.2)
    | none =>
      if releaseFirst then
        let d := destroyResume cb st
        let r := requestResume cb acq d.1
        (r.1, [.platformReleaseStart, .platformAcquireStart] ++ d.2 ++ r.2)
      else
        let r := requestResume cb acq st
        let d := destroyResume cb r.1
        (d.1, [.platformReleaseStart, .platformAcquireStart] ++ r.2 ++ d.2)
  else
    let r := requestResume cb acq st
    (r.1, [.platformAcquireStart] ++ r.2)

/-- The per-handle `onrelease` handler installed by a successful `request`:
`setReleased((wakeLock.current && wakeLock.current.released) || true);
onRelease?.(e)`. -/
def onrelease (cb : Callbacks) (st : HookState) : HookState × List Ev :=
  let v := jsOr (currentAndReleased st.wakeLock) (.bool true)
  ({ st with released := v },
    [.setReleasedEv v] ++ (if cb.onRelease then [.onreleaseCalled] else []))

/-- `document.visibilityState` values relevant to the handler. -/
inductive Visibility where
  | visible
  | hidden
deriving DecidableEq, Repr

/-- `handleVisibilityReturn`: fires on every `visibilitychange`; calls
`request()` (default kind) when the page is visible, a handle is held, and its
`released` field is truthy.  The result lists the `request` calls made (by the
kind passed), so its length is the number of re-acquisition attempts. -/
def handleVisibilityReturn (vis : Visibility) (st : HookState) : List WLType :=
  if vis = Visibility.visible ∧ (currentAndReleased st.wakeLock).truthy then
    [WLType.screen]
  else
    []

/-- One call to `release()`.  `relOutcome`: outcome of the platform
`sentinel.release()` when it is reached (`some e` = it rejects; the source has
no catch here, so the rejection propagates to the caller of `release`). -/
def release (sup : Bool) (relOutcome : Option JSError) (st : HookState) :
    Except JSError (HookState × List Ev) :=
  if sup = false then
    .ok (st, [.warned .releaseUnsupported])
  else if st.wakeLock.isNone then
    .ok (st, [.warned .releaseBeforeRequest])
  else
    match relOutcome with
    | some e => .error e
    | none => .ok (st, [.platformReleaseStart])

/-- One call to `destroy()`.  When the guards pass, the platform release of
the current handle is awaited; if it resolves, the `.then` teardown runs; if
it rejects, the rejection propagates to the caller of `destroy` (no catch). -/
def destroy (sup : Bool) (cb : Callbacks) (relOutcome : Option JSError)
    (st : HookState) : Except JSError (HookState × List Ev) :=
  if sup = false then
    .ok (st, [.warned .destroyUnsupported])
  else if st.wakeLock.isNone then
    .ok (st, [.warned .destroyBeforeRequest])
  else
    match relOutcome with
    | some e => .error e
    | none =>
      let d := destroyResume cb st
      .ok (d.1, [.platformReleaseStart] ++ d.2)

/-- The `released` value the spec's words prescribe for the per-handle release
callback: true when the platform field reads true or is unset/unreadable,
false when the field reads false (a false reading preserved precisely).
Stated from the spec for comparison with the source's `onrelease`. -/
def specOnreleaseValue (cur : Option Sentinel) : JSVal :=
  match cur with
  | none => .bool true
  | some h =>
    match h.released with
    | some false => .bool false
    | _ => .bool true

/-- Final state of a fallible operation when it returned normally, or a
default when it rejected. -/
def okState (r : Except JSError (HookState × List Ev)) (dflt : HookState) :
    HookState :=
  match r with
  | .ok p => p.1
  | .error _ => dflt

/-- Event trace of a fallible operation when it returned normally. -/
def okTrace (r : Except JSError (HookState × List Ev)) : List Ev :=
  match r with
  | .ok p => p.2
  | .error _ => []

/-- Concrete data used by the counterexample executions below. -/
def exSentinel0 : Sentinel := ⟨0, WLType.screen, some false⟩

/-- A second concrete handle, the one acquired by a superseding `request`. -/
def exSentinel1 : Sentinel := ⟨1, WLType.screen, some false⟩

/-- A configuration providing every callback, none of which throws. -/
def exCallbacks : Callbacks := ⟨true, some none, true, true⟩

/-- A state in which a handle is active and the listener is registered. -/
def exActive : HookState := ⟨JSVal.bool false, some exSentinel0, true⟩

theorem jsOr_false_isBool (c : Option Sentinel) :
    (jsOr (currentAndReleased c) (JSVal.bool false)).isBool = true := by
  rcases c with _ | ⟨i, t, rel⟩
  · rfl
  · rcases rel with _ | b
    · rfl
    · cases b <;> rfl

theorem jsOr_true_eq (c : Option Sentinel) :
    jsOr (currentAndReleased c) (JSVal.bool true) = JSVal.bool true := by
  rcases c with _ | ⟨i, t, rel⟩
  · rfl
  · rcases rel with _ | b
    · rfl
    · cases b <;> rfl

/-- C5: the visibility handler fires on every visibility change and
re-acquires the lock (calling `request` with the default kind, screen) if and
only if the page is visible, a handle is currently held, and that handle's
released field reads true; at most one re-acquisition attempt is made per
firing, and none is made when the handle's released field reads false. -/
theorem visibility_reacquire_iff (vis : Visibility) (st : HookState) :
    (handleVisibilityReturn vis st = [WLType.screen] ↔
      vis = Visibility.visible ∧
        ∃ h, st.wakeLock = some h ∧ h.released = some true) ∧
    (handleVisibilityReturn vis st).length ≤ 1 ∧
    (∀ (v : JSVal) (i : Nat) (t : WLType) (l : Bool),
      handleVisibilityReturn vis ⟨v, some ⟨i, t, some false⟩, l⟩ = []) := by
  refine ⟨?_, ?_, ?_⟩
  · rcases st with ⟨r, wl, l⟩
    rcases wl with _ | ⟨i, t, rel⟩
    · cases vis <;>
        simp [handleVisibilityReturn, currentAndReleased, JSVal.truthy]
    · rcases rel with _ | b
      · cases vis <;>
          simp [handleVisibilityReturn, currentAndReleased, JSVal.truthy]
      · cases vis <;> cases b <;>
          simp [handleVisibilityReturn, currentAndReleased, JSVal.truthy]
  · unfold handleVisibilityReturn
    split <;> simp
  · intro v i t l
    cases vis <;>
      simp [handleVisibilityReturn, currentAndReleased, JSVal.truthy]

/-- C6: `destroy` with the capability present, a handle active, and the
platform release resolving performs, in order: the external release, the
unregistration of the visibility listener, the clearing of the handle
reference, and one invocation of the caller-supplied `onDestroy` callback
when provided. -/
theorem destroy_teardown (cb : Callbacks) (st : HookState) (h : Sentinel) :
    destroy true cb none { st with wakeLock := some h } =
      Except.ok ({ st with wakeLock := none, listenerOn := false },
        [Ev.platformReleaseStart, Ev.listenerRemoved, Ev.handleCleared] ++
          (if cb.onDestroy then [Ev.ondestroyCalled] else [])) ∧
    (okTrace (destroy true cb none { st with wakeLock := some h })).count
        Ev.ondestroyCalled = (if cb.onDestroy then 1 else 0) := by
  constructor
  · simp [destroy, destroyResume]
  · cases hcb : cb.onDestroy <;>
      simp [destroy, destroyResume, okTrace, hcb, List.count_cons]

/-- C7: `release` with the capability present, a handle active, and the
platform release resolving invokes the external handle's release and changes
nothing else: the state (handle reference, listener registration, released
cell) is unchanged and the destroy callback is not invoked. -/
theorem release_frame (st : HookState) (h : Sentinel) :
    release true none { st with wakeLock := some h } =
      Except.ok ({ st with wakeLock := some h }, [Ev.platformReleaseStart]) ∧
    (okTrace (release true none { st with wakeLock := some h })).count
        Ev.ondestroyCalled = 0 := by
  constructor
  · simp [release]
  · simp [release, okTrace]

/-- C8: `request` with the capability present, no prior active handle, and a
rejecting acquire invokes `onError` exactly once with the rejection error when
provided, leaves the handle reference empty, and leaves the released cell (and
the whole state) unchanged. -/
theorem request_failure_effects (cb : Callbacks) (st : HookState) (e : JSError)
    (dRel : Option JSError) (rf : Bool) :
    request true cb (AcquireOutcome.fail e) dRel rf { st with wakeLock := none } =
      ({ st with wakeLock := none },
        [Ev.platformAcquireStart] ++
          (if cb.onError then [Ev.onerrorCalled e] else [])) ∧
    (request true cb (AcquireOutcome.fail e) dRel rf
        { st with wakeLock := none }).2.count (Ev.onerrorCalled e) =
      (if cb.onError then 1 else 0) ∧
    (request true cb (AcquireOutcome.fail e) dRel rf
        { st with wakeLock := none }).1.released = st.released := by
  refine ⟨?_, ?_, ?_⟩ <;>
    cases hcb : cb.onError <;>
      simp [request, requestResume, requestTryBody, hcb, List.count_cons]

/-- C9: when the acquire succeeds but the caller-supplied `onRequest` callback
throws, `request` falls into its catch: `onError` is invoked with the thrown
error when provided, the `setReleased` update that would read the handle's
released flag is skipped (no `setReleasedEv` in the trace, released cell
unchanged), yet the handle reference retains the newly acquired handle and the
listener stays registered. -/
theorem request_onRequest_throw (cb : Callbacks) (st : HookState) (h : Sentinel)
    (e : JSError) :
    request true { cb with onRequest := some (some e) } (AcquireOutcome.ok h)
        none true { st with wakeLock := none } =
      ({ st with wakeLock := some h, listenerOn := true },
        [Ev.platformAcquireStart, Ev.handleStored h.id, Ev.onreleaseSet,
          Ev.listenerAdded, Ev.onrequestCalled] ++
          (if cb.onError then [Ev.onerrorCalled e] else [])) := by
  cases hcb : cb.onError <;>
    simp [request, requestResume, requestTryBody, hcb]

/-- C10: the released cell is monotone in definedness: every operation either
leaves it unchanged or stores an actual boolean — the release callback always
stores the boolean true, a completing `release` or `destroy` never touches it,
and `request` either preserves it or stores a boolean — so once it has left
`undefined` it never returns to `undefined`. -/
theorem released_monotone (sup rf : Bool) (cb : Callbacks)
    (acq : AcquireOutcome) (dRel relOut : Option JSError) (st : HookState) :
    ((request sup cb acq dRel rf st).1.released = st.released ∨
      ((request sup cb acq dRel rf st).1.released).isBool = true) ∧
    (onrelease cb st).1.released = JSVal.bool true ∧
    (okState (release sup relOut st) st).released = st.released ∧
    (okState (destroy sup cb relOut st) st).released = st.released := by
  refine ⟨?_, ?_, ?_, ?_⟩
  · cases sup
    · simp [request]
    · rcases acq with h | e
      · rcases hreq : cb.onRequest with _ | ⟨_ | e'⟩ <;>
          rcases hwl : st.wakeLock with _ | h0 <;>
            rcases dRel with _ | e0 <;>
              cases rf <;>
                simp [request, requestResume, requestTryBody, destroyResume,
                  hreq, hwl, jsOr_false_isBool]
      · rcases hwl : st.wakeLock with _ | h0 <;>
          rcases dRel with _ | e0 <;>
            cases rf <;>
              simp [request, requestResume, requestTryBody, destroyResume, hwl]
  · simp [onrelease, jsOr_true_eq]
  · cases sup
    · simp [release, okState]
    · rcases hwl : st.wakeLock with _ | h0 <;>
        rcases relOut with _ | e0 <;>
          simp [release, okState, hwl]
  · cases sup
    · simp [destroy, okState]
    · rcases hwl : st.wakeLock with _ | h0 <;>
        rcases relOut with _ | e0 <;>
          simp [destroy, okState, destroyResume, hwl]

/-- C1 counterexample: a `request` issued while a handle is active does NOT
complete the prior handle's teardown before the new acquisition begins.  Even
in the favorable schedule (the old handle's release resolving first), the
trace puts the new acquisition (position 1) strictly before the listener
unregistration and handle clearing, so the handle-clearing index is not below
the acquisition index; and in the other schedule the stale teardown clears the
new handle, leaving zero active handles instead of exactly one. -/
theorem request_supersede_not_before :
    (request true exCallbacks (AcquireOutcome.ok exSentinel1) none true
        exActive).2 =
      [Ev.platformReleaseStart, Ev.platformAcquireStart, Ev.listenerRemoved,
        Ev.handleCleared, Ev.ondestroyCalled, Ev.handleStored 1,
        Ev.onreleaseSet, Ev.listenerAdded, Ev.onrequestCalled,
        Ev.setReleasedEv (JSVal.bool false)] ∧
    ¬ ((request true exCallbacks (AcquireOutcome.ok exSentinel1) none true
          exActive).2.indexOf Ev.handleCleared <
        (request true exCallbacks (AcquireOutcome.ok exSentinel1) none true
          exActive).2.indexOf Ev.platformAcquireStart) ∧
    (request true exCallbacks (AcquireOutcome.ok exSentinel1) none false
        exActive).1.wakeLock = none := by
  refine ⟨by decide, by decide, by decide⟩

/-- C1 amended: a `request` issued while a handle is active starts the prior
handle's platform release before the new acquisition begins, but the rest of
the teardown (listener unregistration, clearing of the handle reference) runs
as a later microtask, strictly after the new acquisition has begun; exactly
one active handle (the new one) remains only when the prior release resolves
before the new acquisition does — in the opposite order the stale teardown
clears the newly stored handle, leaving none. -/
theorem request_supersede_order (st : HookState) (h hNew : Sentinel)
    (cb : Callbacks) (rf : Bool) :
    (request true cb (AcquireOutcome.ok hNew) none rf
        { st with wakeLock := some h }).2.take 2 =
      [Ev.platformReleaseStart, Ev.platformAcquireStart] ∧
    Ev.handleCleared ∈
      (request true cb (AcquireOutcome.ok hNew) none rf
        { st with wakeLock := some h }).2.drop 2 ∧
    (request true cb (AcquireOutcome.ok hNew) none rf
        { st with wakeLock := some h }).1.wakeLock =
      (if rf then some hNew else none) := by
  rcases hreq : cb.onRequest with _ | ⟨_ | e⟩ <;> cases rf <;>
    simp [request, requestResume, requestTryBody, destroyResume, hreq]

/-- C2 counterexample: when the handle's platform released field reads false,
the release callback does NOT preserve it — `(wakeLock.current &&
wakeLock.current.released) || true` evaluates to true, while the spec's rule
(false preserved precisely) prescribes false for the same state. -/
theorem onrelease_false_collapsed :
    (onrelease ⟨false, none, false, false⟩
        ⟨JSVal.bool false, some ⟨0, WLType.screen, some false⟩, true⟩).1.released
      = JSVal.bool true ∧
    specOnreleaseValue (some ⟨0, WLType.screen, some false⟩) = JSVal.bool false := by
  refine ⟨by decide, by decide⟩

/-- C2 amended: every firing of the per-handle release callback sets the
released cell to the boolean true, whatever the handle's platform released
field reads (true, false, or unset) and even if the handle reference is
already cleared — the `|| true` default collapses a false reading as well —
and the caller-supplied `onRelease` callback, when provided, is invoked
afterwards, exactly once. -/
theorem onrelease_always_true (cb : Callbacks) (st : HookState) :
    (onrelease cb st).1.released = JSVal.bool true ∧
    (onrelease cb st).1.wakeLock = st.wakeLock ∧
    (onrelease cb st).2 =
      [Ev.setReleasedEv (JSVal.bool true)] ++
        (if cb.onRelease then [Ev.onreleaseCalled] else []) ∧
    (onrelease cb st).2.count Ev.onreleaseCalled =
      (if cb.onRelease then 1 else 0) := by
  refine ⟨?_, ?_, ?_, ?_⟩ <;>
    cases hcb : cb.onRelease <;>
      simp [onrelease, jsOr_true_eq, hcb, List.count_cons]

/-- C3 counterexample: with the capability present and a handle active, a
rejecting platform `sentinel.release()` propagates out of both `release` and
`destroy` as a rejection to the caller — the awaits there are not wrapped in
any catch. -/
theorem release_rejection_propagates :
    release true (some ⟨7⟩) exActive = Except.error ⟨7⟩ ∧
    destroy true exCallbacks (some ⟨7⟩) exActive = Except.error ⟨7⟩ := by
  exact ⟨rfl, rfl⟩

/-- C3 amended: `request` never rejects to its caller — an acquire rejection
(or an `onRequest` throw) is absorbed by its catch, invoking `onError` exactly
once when provided — and the unsupported/misuse paths of every operation
return normally with a warning; but `release` and `destroy` reject exactly
when the capability is present, a handle is active, and the platform release
rejects: that rejection crosses the public boundary. -/
theorem rejection_characterization (sup : Bool) (st : HookState)
    (cb : Callbacks) (relOut : Option JSError) (e : JSError)
    (dRel : Option JSError) (rf : Bool) :
    (release sup relOut st = Except.error e ↔
      sup = true ∧ st.wakeLock.isSome = true ∧ relOut = some e) ∧
    (destroy sup cb relOut st = Except.error e ↔
      sup = true ∧ st.wakeLock.isSome = true ∧ relOut = some e) ∧
    (request true cb (AcquireOutcome.fail e) dRel rf st).2.count
        (Ev.onerrorCalled e) = (if cb.onError then 1 else 0) := by
  refine ⟨?_, ?_, ?_⟩
  · cases sup
    · simp [release]
    · rcases hwl : st.wakeLock with _ | h0 <;>
        rcases relOut with _ | e0 <;>
          simp [release, hwl]
  · cases sup
    · simp [destroy]
    · rcases hwl : st.wakeLock with _ | h0 <;>
        rcases relOut with _ | e0 <;>
          simp [destroy, destroyResume, hwl]
  · rcases hwl : st.wakeLock with _ | h0 <;>
      rcases dRel with _ | e0 <;>
        cases rf <;>
          cases hcb : cb.onError <;>
            cases hcd : cb.onDestroy <;>
              simp [request, requestResume, requestTryBody, destroyResume,
                hwl, hcb, hcd, List.count_cons]

/-- C4 counterexample: after a first request attempt whose acquisition fails,
the released cell still reads `undefined` (unknown) — the catch path never
writes it — so releasedStatus can be unknown after a request attempt has
occurred. -/
theorem released_unknown_after_failed_request :
    (request true ⟨true, none, false, false⟩ (AcquireOutcome.fail ⟨3⟩) none
        true initState).1.released = JSVal.undefined := by
  decide

/-- C4 amended: the released cell is unknown only before the first completed
`setReleased` write: a request whose acquisition rejects, or whose `onRequest`
callback throws, leaves it unchanged (so possibly still unknown), while a
fully successful request and every firing of the release callback store an
actual boolean. -/
theorem released_definedness (cb : Callbacks) (st : HookState) (h : Sentinel)
    (e : JSError) (dRel : Option JSError) (rf : Bool) :
    ((request true { cb with onRequest := none } (AcquireOutcome.ok h) dRel rf
        st).1.released).isBool = true ∧
    ((request true { cb with onRequest := some none } (AcquireOutcome.ok h)
        dRel rf st).1.released).isBool = true ∧
    (request true cb (AcquireOutcome.fail e) dRel rf st).1.released =
      st.released ∧
    (request true { cb with onRequest := some (some e) } (AcquireOutcome.ok h)
        dRel rf st).1.released = st.released ∧
    ((onrelease cb st).1.released).isBool = true := by
  refine ⟨?_, ?_, ?_, ?_, ?_⟩
  · rcases hwl : st.wakeLock with _ | h0 <;>
      rcases dRel with _ | e0 <;>
        cases rf <;>
          simp [request, requestResume, requestTryBody, destroyResume, hwl,
            jsOr_false_isBool]
  · rcases hwl : st.wakeLock with _ | h0 <;>
      rcases dRel with _ | e0 <;>
        cases rf <;>
          simp [request, requestResume, requestTryBody, destroyResume, hwl,
            jsOr_false_isBool]
  · rcases hwl : st.wakeLock with _ | h0 <;>
      rcases dRel with _ | e0 <;>
        cases rf <;>
          simp [request, requestResume, requestTryBody, destroyResume, hwl]
  · rcases hwl : st.wakeLock with _ | h0 <;>
      rcases dRel with _ | e0 <;>
        cases rf <;>
          simp [request, requestResume, requestTryBody, destroyResume, hwl]
  · simp [onrelease, jsOr_true_eq, JSVal.isBool]

end WakeLock
